import Mathlib

/-!
Formal model of the EloWard OBS plugin repository.

Sources embedded:
  - src/eloward-obs/src/plugin-main.c          (the "obs" variant)
  - src/eloward-rank-badges/eloward-rank-badges.c  (the "badges" variant)
  - src/eloward-rank-badges/rank-badge-injector.c  (the "injector" variant)

Strings from the C code are modelled as `List Char`.  The external world
(libcurl transport, the jansson/json-c parser, the OBS host) is modelled
explicitly: a `World` record supplies the outcome of every network call and
of every JSON parse, and each embedded function returns the externally
visible `Effects` it performs (requests issued, log lines emitted,
subscription checks and injection sweeps invoked) next to its C return
value.  `snprintf` into a fixed-size buffer is modelled as truncation to
`bufSize - 1` characters.
-/

set_option maxRecDepth 4000

namespace EloWard

/-- The backtick character (0x60), written via its code point. -/
def backtick : Char := Char.ofNat 96

/-- The backslash character. -/
def bslash : Char := '\\'

/-- JSON values as surfaced by the jansson / json-c parser used in the sources. -/
inductive Json where
  | null
  | bool (b : Bool)
  | num (n : Int)
  | str (s : List Char)
  | arr (elems : List Json)
  | obj (fields : List (String × Json))

/-- `json_object_get`: the value of field `key`, or none (NULL) when the value
is not an object or the field is absent. -/
def json_object_get (j : Json) (key : String) : Option Json :=
  match j with
  | .obj fields => (fields.find? (fun p => p.1 == key)).map (fun p => p.2)
  | _ => none

/-- The `json_is_boolean` guard used in the sources: a flag starts out false
and is overwritten only when the field exists and is a JSON boolean
(plugin-main.c:240-244 and the parallel sites). -/
def boolField (root : Json) (key : String) : Bool :=
  match json_object_get root key with
  | some (.bool b) => b
  | _ => false

/-- An HTTP POST request as assembled by the plugin: URL and body. -/
structure HttpRequest where
  url : List Char
  body : List Char
deriving DecidableEq

/-- Outcome of `curl_easy_perform` together with the bytes delivered to
`write_callback`. -/
inductive CurlOutcome where
  | ok (response : List Char)
  | err (msg : List Char)
deriving DecidableEq

/-- The external world the plugin talks to: whether `curl_easy_init`
succeeds, what each request returns, and how the JSON library parses each
response body (jansson's parse-error text is abstracted away). -/
structure World where
  curlInitOk : Bool
  transport : HttpRequest → CurlOutcome
  parse : List Char → Option Json

/-- Externally visible effects of a code path: network requests issued
(i.e. `curl_easy_perform` reached), log lines emitted, number of
`check_streamer_subscription` invocations, number of
`inject_into_chat_sources` sweeps. -/
structure Effects where
  requests : List HttpRequest
  logs : List (List Char)
  subChecks : Nat
  injections : Nat
deriving DecidableEq

/-- No effects. -/
def Effects.empty : Effects := ⟨[], [], 0, 0⟩

/-- Sequencing of effects. -/
def Effects.append (a b : Effects) : Effects :=
  ⟨a.requests ++ b.requests, a.logs ++ b.logs,
   a.subChecks + b.subChecks, a.injections + b.injections⟩

instance : Append Effects := ⟨Effects.append⟩

/-- #define SUBSCRIPTION_API_URL (identical in both plugin variants). -/
def SUBSCRIPTION_API_URL : List Char :=
  "https://eloward-subscription-api.unleashai-inquiries.workers.dev".toList

/-- #define RANK_API_URL (identical in both plugin variants). -/
def RANK_API_URL : List Char :=
  "https://eloward-viewers-api.unleashai-inquiries.workers.dev/api/ranks/lol".toList

/-- #define METRICS_ENDPOINT_DB_READ -/
def METRICS_ENDPOINT_DB_READ : List Char := "/metrics/db_read".toList

/-- #define METRICS_ENDPOINT_SUCCESSFUL_LOOKUP -/
def METRICS_ENDPOINT_SUCCESSFUL_LOOKUP : List Char := "/metrics/successful_lookup".toList

/-- #define SUBSCRIPTION_VERIFY_ENDPOINT -/
def SUBSCRIPTION_VERIFY_ENDPOINT : List Char := "/subscription/verify".toList

/-- #define POLL_INTERVAL_MS 5000 -/
def POLL_INTERVAL_MS : Nat := 5000

/-- `snprintf` into a buffer of `bufSize` bytes keeps at most `bufSize - 1`
characters of the formatted output. -/
def snprintfTake (bufSize : Nat) (s : List Char) : List Char := s.take (bufSize - 1)

/-- The log-line prefix of the obs variant (`obs_log` adds none in-text). -/
def obsLogPrefix : List Char := []

/-- The log-line prefix the badges variant puts in every `blog` call. -/
def badgesLogPrefix : List Char := "EloWard Ranks: ".toList

/-- URL built by `snprintf(url, sizeof(url), "%s%s", SUBSCRIPTION_API_URL, endpoint)`
with a 512-byte buffer. -/
def apiUrl (endpoint : List Char) : List Char :=
  snprintfTake 512 (SUBSCRIPTION_API_URL ++ endpoint)

/-- POST body built by `snprintf(post_data, sizeof(post_data),
"{\"channel_name\":\"%s\"}", streamer_name)` with a 256-byte buffer. -/
def channelBody (name : List Char) : List Char :=
  snprintfTake 256 ("\x7b\"channel_name\":\"".toList ++ name ++ "\"\x7d".toList)

/-- The request `check_streamer_subscription` sends to the verify endpoint. -/
def verifyRequest (name : List Char) : HttpRequest :=
  ⟨apiUrl SUBSCRIPTION_VERIFY_ENDPOINT, channelBody name⟩

/-- The request `increment_db_read_counter` sends. -/
def dbReadRequest (name : List Char) : HttpRequest :=
  ⟨apiUrl METRICS_ENDPOINT_DB_READ, channelBody name⟩

/-- `increment_db_read_counter` (plugin-main.c:67-129, eloward-rank-badges.c:47-109;
the two copies differ only in the log-line prefix, passed here as `logp`).
The argument is `none` for a NULL pointer.  Returns the C `success` flag and
the effects performed.  The counter bump `plugin_data->db_reads++` is not
needed by any claim and is omitted. -/
def increment_db_read_counter (logp : List Char) (w : World)
    (streamer_name : Option (List Char)) : Bool × Effects :=
  match streamer_name with
  | none => (false, Effects.empty)
  | some name =>
    if name = [] then (false, Effects.empty)
    else if w.curlInitOk = false then
      (false, ⟨[], [logp ++ "Failed to initialize curl for db_read counter".toList], 0, 0⟩)
    else
      match w.transport (dbReadRequest name) with
      | .err m =>
        (false, ⟨[dbReadRequest name],
                 [logp ++ "db_read counter curl_easy_perform() failed: ".toList ++ m], 0, 0⟩)
      | .ok body =>
        match w.parse body with
        | none =>
          (false, ⟨[dbReadRequest name],
                   [logp ++ "Failed to parse db_read response JSON".toList], 0, 0⟩)
        | some root => (boolField root ("success"), ⟨[dbReadRequest name], [], 0, 0⟩)

/-- The request `increment_successful_lookup_counter` sends. -/
def lookupRequest (name : List Char) : HttpRequest :=
  ⟨apiUrl METRICS_ENDPOINT_SUCCESSFUL_LOOKUP, channelBody name⟩

/-- `increment_successful_lookup_counter` (plugin-main.c:132-194,
eloward-rank-badges.c:112-174).  Structurally identical to the db_read
counter, aimed at the successful_lookup endpoint.  No call site exists for
this function anywhere in the repository. -/
def increment_successful_lookup_counter (logp : List Char) (w : World)
    (streamer_name : Option (List Char)) : Bool × Effects :=
  match streamer_name with
  | none => (false, Effects.empty)
  | some name =>
    if name = [] then (false, Effects.empty)
    else if w.curlInitOk = false then
      (false, ⟨[], [logp ++ "Failed to initialize curl for successful_lookup counter".toList], 0, 0⟩)
    else
      match w.transport (lookupRequest name) with
      | .err m =>
        (false, ⟨[lookupRequest name],
                 [logp ++ "successful_lookup counter curl_easy_perform() failed: ".toList ++ m], 0, 0⟩)
      | .ok body =>
        match w.parse body with
        | none =>
          (false, ⟨[lookupRequest name],
                   [logp ++ "Failed to parse successful_lookup response JSON".toList], 0, 0⟩)
        | some root => (boolField root ("success"), ⟨[lookupRequest name], [], 0, 0⟩)

/-- The transport-parse part of `check_streamer_subscription`
(plugin-main.c:232-252, eloward-rank-badges.c:212-232): perform the verify
request, parse the response and read the boolean "subscribed" field. -/
def verifyOutcome (logp : List Char) (w : World) (name : List Char) : Bool × Effects :=
  match w.transport (verifyRequest name) with
  | .err m =>
    (false, ⟨[verifyRequest name],
             [logp ++ "curl_easy_perform() failed: ".toList ++ m], 0, 0⟩)
  | .ok body =>
    match w.parse body with
    | none =>
      (false, ⟨[verifyRequest name],
               [logp ++ "Failed to parse subscription JSON".toList], 0, 0⟩)
    | some root => (boolField root ("subscribed"), ⟨[verifyRequest name], [], 0, 0⟩)

/-- The "%s is %s" status line logged at the end of every completed
subscription check (plugin-main.c:258, eloward-rank-badges.c:238). -/
def statusLine (logp name : List Char) (subscribed : Bool) : List Char :=
  logp ++ name ++ " is ".toList ++
    (if subscribed then "Subscribed ✅".toList else "Not Subscribed ❌".toList)

/-- `check_streamer_subscription` (plugin-main.c:197-261,
eloward-rank-badges.c:177-241; the copies differ only in the log prefix).
The `subChecks` effect field records the invocation itself.  Control flow:
reject NULL/empty name; fire the db_read metrics increment; on
`curl_easy_init` failure return false; otherwise perform the verify
request, defaulting to "not subscribed" on transport error, parse error or
a missing/non-boolean "subscribed" field, and log the status line. -/
def check_streamer_subscription (logp : List Char) (w : World)
    (streamer_name : Option (List Char)) : Bool × Effects :=
  match streamer_name with
  | none => (false, ⟨[], [], 1, 0⟩)
  | some name =>
    if name = [] then (false, ⟨[], [], 1, 0⟩)
    else
      let edb := (increment_db_read_counter logp w (some name)).2
      if w.curlInitOk = false then
        (false, Effects.mk [] [] 1 0 ++ edb ++
                  ⟨[], [logp ++ "Failed to initialize curl".toList], 0, 0⟩)
      else
        let vo := verifyOutcome logp w name
        (vo.1, Effects.mk [] [] 1 0 ++ edb ++ vo.2 ++
                 ⟨[], [statusLine logp name vo.1], 0, 0⟩)

/-! ## Injection: plugin-main.c variant -/

/-- A browser source as the injectors see it: its type id
(`obs_source_get_id`), the "url" entry of its settings, and its name
(`obs_source_get_name`). -/
structure BrowserSource where
  id : List Char
  url : List Char
  srcName : List Char
deriving DecidableEq

/-- First literal piece of the config line of plugin-main.c:397-399 (braces
and single quotes written as \x7b \x7d \x27). -/
def cfgA : List Char := "window.ELOWARD_CONFIG = \x7bstreamerName: \x27".toList

/-- Piece between the streamer name and RANK_API_URL. -/
def cfgB : List Char := "\x27, isSubscribed: true, apiUrls: \x7brank: \x27".toList

/-- Piece between RANK_API_URL and SUBSCRIPTION_API_URL. -/
def cfgC : List Char := "\x27, subscription: \x27".toList

/-- Closing piece of the config line. -/
def cfgD : List Char := "\x27\x7d\x7d;".toList

/-- `config_json` of plugin-main.c:396-399: snprintf into a 512-byte buffer. -/
def obs_config_json (current_streamer : List Char) : List Char :=
  snprintfTake 512
    (cfgA ++ current_streamer ++ cfgB ++ RANK_API_URL ++ cfgC ++ SUBSCRIPTION_API_URL ++ cfgD)

/-- Opening literal of the resources line of plugin-main.c:405-407. -/
def resA : List Char := "window.ELOWARD_RESOURCES_PATH = \x27".toList

/-- Closing literal of the resources line. -/
def resB : List Char := "\x27;".toList

/-- `resources_path` of plugin-main.c:401-411: empty when `obs_module_file`
returned NULL, otherwise snprintf into a 512-byte buffer. -/
def obs_resources_js (plugin_data_path : Option (List Char)) : List Char :=
  match plugin_data_path with
  | none => []
  | some p => snprintfTake 512 (resA ++ p ++ resB)

/-- `js_to_inject` of plugin-main.c:413-417: a buffer of
`strlen(config_json) + strlen(resources_path) + strlen(js_code) + 10` bytes
filled by `snprintf(.., "%s\n%s\n%s", ..)`. -/
def obs_built_js (current_streamer : List Char) (plugin_data_path : Option (List Char))
    (js_code : List Char) : List Char :=
  snprintfTake
    ((obs_config_json current_streamer).length + (obs_resources_js plugin_data_path).length
      + js_code.length + 10)
    (obs_config_json current_streamer ++ ['\n'] ++ obs_resources_js plugin_data_path
      ++ ['\n'] ++ js_code)

/-- `inject_js_to_browser_source` (plugin-main.c:374-431).  Inputs: the
browser source (none for NULL), the cached script text, the subscribed flag
and cached streamer name, and the resource path `obs_module_file` returns.
Output: the C return value, and the JS string set into the "javascript"
field of the calldata handed to the `execute_js` host proc (none when the
function returns before reaching the host call). -/
def obs_inject_js_to_browser_source (browser_source : Option BrowserSource)
    (js_code : Option (List Char)) (streamer_subscribed : Bool)
    (current_streamer : List Char) (plugin_data_path : Option (List Char)) :
    Bool × Option (List Char) :=
  match browser_source, js_code with
  | none, _ => (false, none)
  | _, none => (false, none)
  | some src, some code =>
    if streamer_subscribed = false then (false, none)
    else if src.id ≠ "browser_source".toList then (false, none)
    else if ¬ ("twitch.tv".toList <:+: src.url ∨ "twitch-chat".toList <:+: src.url
               ∨ "streamelements.com/overlay/chat".toList <:+: src.url) then (false, none)
    else (true, some (obs_built_js current_streamer plugin_data_path code))

/-! ## Injection: eloward-rank-badges.c variant -/

/-- The textual form the badges variant gives the subscribed flag. -/
def boolJs (b : Bool) : List Char := if b then "true".toList else "false".toList

/-- Template piece of eloward-rank-badges.c:326-331 up to the streamer name. -/
def badgesTpl1 : List Char :=
  ("(function() \x7b\n    try \x7b\n        const script = document.createElement(\x27script\x27);\n        script.text = `\n            window.ELOWARD_CONFIG = \x7b\n                streamerName: \x27").toList

/-- Piece between the streamer name and the subscribed flag. -/
def badgesTpl2 : List Char := "\x27,\n                isSubscribed: ".toList

/-- Piece between the subscribed flag and RANK_API_URL. -/
def badgesTpl3 : List Char := ",\n                apiUrls: \x7b\n                    rank: \x27".toList

/-- Piece between RANK_API_URL and SUBSCRIPTION_API_URL. -/
def badgesTpl4 : List Char := "\x27,\n                    subscription: \x27".toList

/-- Piece between SUBSCRIPTION_API_URL and the script body. -/
def badgesTpl5 : List Char :=
  "\x27\n                \x7d\n            \x7d;\n            ".toList

/-- Closing template piece after the script body (eloward-rank-badges.c:339-345). -/
def badgesTpl6 : List Char :=
  ("\n        `;\n        document.head.appendChild(script);\n        return \x27EloWard rank badges script injected\x27;\n    \x7d catch (err) \x7b\n        return \x27Error injecting EloWard script: \x27 + err.message;\n    \x7d\n\x7d)();").toList

/-- `inject_script` of eloward-rank-badges.c:323-350: one snprintf into a
65536-byte buffer; the script body is interpolated with plain %s, no
escaping. -/
def badges_build_script (current_streamer : List Char) (streamer_subscribed : Bool)
    (js_code : List Char) : List Char :=
  snprintfTake 65536
    (badgesTpl1 ++ current_streamer ++ badgesTpl2 ++ boolJs streamer_subscribed
      ++ badgesTpl3 ++ RANK_API_URL ++ badgesTpl4 ++ SUBSCRIPTION_API_URL
      ++ badgesTpl5 ++ js_code ++ badgesTpl6)

/-- A host proc invocation: the proc name and the calldata entries set
before the call. -/
structure CallSubmission where
  procName : List Char
  calldata : List (List Char × List Char)
deriving DecidableEq

/-- `inject_js_to_browser_source` (eloward-rank-badges.c:319-372): builds
the script, sets it as the "script" calldata string, calls the
`execute_js` proc when the source has a proc handler, and returns true iff
the host produced a result string. -/
def badges_inject_js_to_browser_source (browser_source : Option BrowserSource)
    (js_code : Option (List Char)) (current_streamer : List Char)
    (streamer_subscribed : Bool) (phPresent : Bool) (hostResult : Option (List Char)) :
    Bool × Option CallSubmission :=
  match browser_source, js_code with
  | none, _ => (false, none)
  | _, none => (false, none)
  | some _, some code =>
    let script := badges_build_script current_streamer streamer_subscribed code
    let call : Option CallSubmission :=
      if phPresent then some ⟨"execute_js".toList, [("script".toList, script)]⟩ else none
    match (if phPresent then hostResult else none) with
    | some _ => (true, call)
    | none => (false, call)

/-! ## Injection: rank-badge-injector.c variant -/

/-- The character-escaping loop of rank-badge-injector.c:51-56, appending to
the dstr per character. -/
def escape_js : List Char → List Char
  | [] => []
  | c :: cs =>
    (if c = backtick then [bslash, backtick]
     else if c = bslash then [bslash, bslash]
     else if c = '\n' then [bslash, 'n']
     else [c]) ++ escape_js cs

/-- Modelled from the spec: the per-character replacement table the claim
states for template-literal embedding — a backtick becomes
backslash-backtick, a backslash becomes backslash-backslash, a newline
becomes backslash-n, every other character is copied unchanged. -/
def escapeCharSpec (c : Char) : List Char :=
  if c = backtick then [bslash, backtick]
  else if c = bslash then [bslash, bslash]
  else if c = '\n' then [bslash, 'n']
  else [c]

/-- Modelled from the spec: the eloward-rank-badges.c injection script as the
claim describes it, with the script body escaped before being embedded in
the template literal.  Compared against `badges_build_script`, which is what
the source actually builds. -/
def badges_build_script_escaped (current_streamer : List Char) (streamer_subscribed : Bool)
    (js_code : List Char) : List Char :=
  snprintfTake 65536
    (badgesTpl1 ++ current_streamer ++ badgesTpl2 ++ boolJs streamer_subscribed
      ++ badgesTpl3 ++ RANK_API_URL ++ badgesTpl4 ++ SUBSCRIPTION_API_URL
      ++ badgesTpl5 ++ escape_js js_code ++ badgesTpl6)

/-- Opening literal of the injector template (rank-badge-injector.c:44-48). -/
def injTplHead : List Char :=
  ("(function() \x7b\n    try \x7b\n        const script = document.createElement(\x27script\x27);\n        script.text = `").toList

/-- Closing literal of the injector template (rank-badge-injector.c:58-65). -/
def injTplTail : List Char :=
  ("`;\n        document.head.appendChild(script);\n        return \x27EloWard rank badges script injected\x27;\n    \x7d catch (err) \x7b\n        return \x27Error injecting EloWard script: \x27 + err.message;\n    \x7d\n\x7d)();").toList

/-- Result of the injector-variant inject: the C return value, the host proc
invocation made (none when no proc handler or the guard returned early),
and the contents of the `injector` dstr at the moment of the call. -/
structure InjectorOutcome where
  ret : Bool
  call : Option CallSubmission
  built : List Char
deriving DecidableEq

/-- `inject_js_to_browser_source` (rank-badge-injector.c:39-84): builds the
escaped injector string into a dstr, then calls the `javascript` proc with
a zero-initialized calldata into which nothing was ever set. -/
def injector_inject_js_to_browser_source (browserPresent : Bool)
    (js_code : Option (List Char)) (phPresent : Bool) (hostResult : Option (List Char)) :
    InjectorOutcome :=
  if browserPresent = false then ⟨false, none, []⟩
  else match js_code with
  | none => ⟨false, none, []⟩
  | some code =>
    let built := injTplHead ++ escape_js code ++ injTplTail
    let call : Option CallSubmission :=
      if phPresent then some ⟨"javascript".toList, []⟩ else none
    match (if phPresent then hostResult else none) with
    | some _ => ⟨true, call, built⟩
    | none => ⟨false, call, built⟩

/-! ## Plugin state, streamer writes, poll iterations, module load -/

/-- The fields of `eloward_data_t` the claims are about: the cached streamer
name and the subscribed flag.  (Thread handles, counters and the cached
script text are not consulted by any modelled transition.) -/
structure PluginState where
  current_streamer : List Char
  streamer_subscribed : Bool
deriving DecidableEq

/-- Every store to `current_streamer` in the sources has the shape
`strncpy(dst, src, sizeof(dst) - 1); dst[sizeof(dst) - 1] = 0;` with a
128-byte buffer: as a string value this is truncation to 127 characters. -/
def set_current_streamer (src : List Char) : List Char := src.take 127

/-- One iteration body of `poll_thread_func` in plugin-main.c:460-478,
between the `os_event_try` stop check and the `os_sleep_ms`.  This loop
performs no streamer resolution: whenever the cached name is non-empty it
re-checks the subscription, and re-runs the injection sweep when the flag
flipped to subscribed. -/
def obs_poll_iteration (w : World) (s : PluginState) : PluginState × Effects :=
  if s.current_streamer = [] then (s, Effects.empty)
  else
    let r := check_streamer_subscription obsLogPrefix w (some s.current_streamer)
    let s2 : PluginState := ⟨s.current_streamer, r.1⟩
    if s.streamer_subscribed ≠ r.1 then
      if r.1 then
        (s2, r.2 ++ ⟨[], [obsLogPrefix ++ "Subscription status changed, re-injecting".toList], 0, 1⟩)
      else
        (s2, r.2 ++ ⟨[], [obsLogPrefix ++ "Subscription expired".toList], 0, 0⟩)
    else (s2, r.2)

/-- One iteration body of `poll_thread_func` in eloward-rank-badges.c:412-432:
re-resolve the streamer (the outcome of `get_current_streamer` is the
`resolved` input, none when it returned false), re-check the subscription
only when the resolved name differs from the cached one — the check is
called with the resolved (untruncated) name — then run the injection sweep
when subscribed. -/
def badges_poll_iteration (w : World) (resolved : Option (List Char)) (s : PluginState) :
    PluginState × Effects :=
  match resolved with
  | none => (s, Effects.empty)
  | some name =>
    let step : PluginState × Effects :=
      if name ≠ s.current_streamer then
        let r := check_streamer_subscription badgesLogPrefix w (some name)
        (⟨set_current_streamer name, r.1⟩,
         r.2 ++ ⟨[], [badgesLogPrefix ++ "Streamer changed".toList], 0, 0⟩)
      else (s, Effects.empty)
    if step.1.streamer_subscribed then (step.1, step.2 ++ ⟨[], [], 0, 1⟩)
    else step

/-- `rank_badges_update` (plugin-main.c:484-507): resolve; when the resolved
name differs from the cached one, cache it (truncated) and check the
subscription of the newly cached (truncated) name; finally run the
injection sweep when subscribed. -/
def obs_rank_badges_update (w : World) (resolved : Option (List Char)) (s : PluginState) :
    PluginState × Effects :=
  let step : PluginState × Effects :=
    match resolved with
    | none => (s, Effects.empty)
    | some name =>
      if name ≠ s.current_streamer then
        let r := check_streamer_subscription obsLogPrefix w (some (set_current_streamer name))
        (⟨set_current_streamer name, r.1⟩, r.2)
      else (s, Effects.empty)
  if step.1.streamer_subscribed then (step.1, step.2 ++ ⟨[], [], 0, 1⟩)
  else step

/-- The OBS_FRONTEND_EVENT_STREAMING_STARTED branch of `on_scene_change`
(plugin-main.c:588-604): when resolution succeeds, cache the name
(truncated) unconditionally, check the subscription of the cached name, and
inject when subscribed. -/
def obs_on_streaming_started (w : World) (resolved : Option (List Char)) (s : PluginState) :
    PluginState × Effects :=
  match resolved with
  | none => (s, Effects.empty)
  | some name =>
    let r := check_streamer_subscription obsLogPrefix w (some (set_current_streamer name))
    let s2 : PluginState := ⟨set_current_streamer name, r.1⟩
    if r.1 then (s2, r.2 ++ ⟨[], [], 0, 1⟩) else (s2, r.2)

/-- `rank_badges_update` (eloward-rank-badges.c:457-481): `streamer_setting`
is the "streamer_name" settings string (`obs_data_get_string` never returns
NULL); an empty setting does nothing, a changed one is cached (truncated)
and its subscription checked with the untruncated setting string. -/
def badges_rank_badges_update (w : World) (streamer_setting : List Char) (s : PluginState) :
    PluginState × Effects :=
  if streamer_setting = [] then (s, Effects.empty)
  else if streamer_setting ≠ s.current_streamer then
    let r := check_streamer_subscription badgesLogPrefix w (some streamer_setting)
    (⟨set_current_streamer streamer_setting, r.1⟩,
     r.2 ++ ⟨[], [badgesLogPrefix ++ "Streamer set".toList], 0, 0⟩)
  else (s, Effects.empty)

/-- `obs_module_load` (plugin-main.c:611-663) reduced to its return value as
a function of which initialization steps succeed: the JS file load, the
stop-event creation and the poll-thread creation.  A false return tells OBS
the module failed to load and the plugin is dropped. -/
def obs_module_load (jsLoadOk eventInitOk threadCreateOk : Bool) : Bool :=
  if jsLoadOk = false then false
  else if eventInitOk = false then false
  else if threadCreateOk = false then false
  else true

/-- `obs_module_load` (eloward-rank-badges.c:601-648): a failed script load
is only logged; a resolver miss leaves the empty initial state; a resolved
name is cached (truncated) and checked.  The function returns true in every
case. -/
def badges_module_load (w : World) (jsLoadOk : Bool) (resolved : Option (List Char)) :
    Bool × PluginState × Effects :=
  let e0 : Effects :=
    if jsLoadOk then Effects.empty
    else ⟨[], [badgesLogPrefix ++ "Failed to load JavaScript file".toList], 0, 0⟩
  match resolved with
  | none => (true, ⟨[], false⟩, e0)
  | some name =>
    let r := check_streamer_subscription badgesLogPrefix w (some name)
    (true, ⟨set_current_streamer name, r.1⟩, e0 ++ r.2)

/-! ## Poll loop skeletons in discrete time

One time step is one loop iteration.  The stop signal is raised during
iteration `r` (a manual-reset event: once raised it stays raised). -/

/-- The loop skeleton of plugin-main.c:460-479: `sig i` says whether the stop
event is already signalled when the `os_event_try` head check of iteration
`i` runs; each iteration that passes the check does its work and completes
one full `os_sleep_ms(POLL_INTERVAL_MS)`.  Result: the index of the head
check at which the loop exits — equal to the number of completed sleeps —
or none if `fuel` iterations did not suffice. -/
def obs_poll_loop_exit (sig : Nat → Bool) : Nat → Nat → Option Nat
  | 0, _ => none
  | fuel + 1, i => if sig i then some i else obs_poll_loop_exit sig fuel (i + 1)

/-- The loop skeleton of eloward-rank-badges.c:412-438: `runFlag i` is
`thread_running` at the head of iteration `i`; `waitSig i` says whether the
stop event gets signalled by the end of iteration `i`'s
`os_event_timedwait(stop_event, POLL_INTERVAL_MS)`, which then returns 0
before the full interval elapses and breaks the loop.  Result: the index of
the iteration at which the loop exits paired with true when the exit came
from the timed wait waking early, or none if fuel ran out. -/
def badges_poll_loop_exit (runFlag waitSig : Nat → Bool) : Nat → Nat → Option (Nat × Bool)
  | 0, _ => none
  | fuel + 1, i =>
    if runFlag i = false then some (i, false)
    else if waitSig i then some (i, true)
    else badges_poll_loop_exit runFlag waitSig fuel (i + 1)

/-! ## Concrete worlds and states used by witnesses and counterexamples -/

/-- A world where every request succeeds and every body parses to an object
with boolean true "subscribed" and "success" fields. -/
def wGood : World :=
  ⟨true, fun _ => CurlOutcome.ok ("ok".toList),
   fun _ => some (Json.obj [("subscribed", Json.bool true), ("success", Json.bool true)])⟩

/-- A world where every transport call fails. -/
def wDead : World :=
  ⟨true, fun _ => CurlOutcome.err ("timeout".toList), fun _ => none⟩

/-- A plugin state with a cached, not-subscribed streamer "alice". -/
def sAlice : PluginState := ⟨"alice".toList, false⟩

/-- A browser source that renders a Twitch chat page. -/
def bsChat : BrowserSource :=
  ⟨"browser_source".toList, "https://www.twitch.tv/popout/alice/chat".toList, "chat".toList⟩

/-! ## Helper lemmas -/

theorem Effects.requests_append (a b : Effects) :
    (a ++ b).requests = a.requests ++ b.requests := rfl

theorem Effects.logs_append (a b : Effects) :
    (a ++ b).logs = a.logs ++ b.logs := rfl

theorem Effects.subChecks_append (a b : Effects) :
    (a ++ b).subChecks = a.subChecks + b.subChecks := rfl

theorem Effects.injections_append (a b : Effects) :
    (a ++ b).injections = a.injections + b.injections := rfl

/-- Effects shape of the db_read increment: never a subscription check or an
injection sweep, and at most the single db_read request. -/
theorem increment_db_read_effects (logp : List Char) (w : World) (sn : Option (List Char)) :
    (increment_db_read_counter logp w sn).2.subChecks = 0 ∧
    (increment_db_read_counter logp w sn).2.injections = 0 ∧
    ((increment_db_read_counter logp w sn).2.requests = [] ∨
      ∃ name, sn = some name ∧
        (increment_db_read_counter logp w sn).2.requests = [dbReadRequest name]) := by
  unfold increment_db_read_counter
  rcases sn with _ | name
  · exact ⟨rfl, rfl, Or.inl rfl⟩
  · by_cases hn : name = []
    · simp [hn, Effects.empty]
    · simp only [if_neg hn]
      by_cases hc : w.curlInitOk = false
      · simp [hc]
      · simp only [if_neg hc]
        split
        · exact ⟨rfl, rfl, Or.inr ⟨name, rfl, rfl⟩⟩
        · split
          · exact ⟨rfl, rfl, Or.inr ⟨name, rfl, rfl⟩⟩
          · exact ⟨rfl, rfl, Or.inr ⟨name, rfl, rfl⟩⟩

/-- `boolField` is true exactly when the field exists and is the JSON
boolean true. -/
theorem boolField_true_iff (root : Json) (key : String) :
    boolField root key = true ↔ json_object_get root key = some (Json.bool true) := by
  unfold boolField
  rcases h : json_object_get root key with _ | j
  · simp
  · cases j <;> simp

/-- The verify step returns true exactly when the transport delivered a body
that parses to JSON carrying a boolean true "subscribed" field. -/
theorem verifyOutcome_true_iff (logp : List Char) (w : World) (name : List Char) :
    (verifyOutcome logp w name).1 = true ↔
      ∃ body root, w.transport (verifyRequest name) = CurlOutcome.ok body ∧
        w.parse body = some root ∧
        json_object_get root ("subscribed") = some (Json.bool true) := by
  unfold verifyOutcome
  rcases htr : w.transport (verifyRequest name) with body | m
  · dsimp only
    rcases hp : w.parse body with _ | root
    · simp [hp]
    · dsimp only
      rw [boolField_true_iff]
      constructor
      · intro hb
        exact ⟨body, root, rfl, hp, hb⟩
      · rintro ⟨b₂, r₂, hb₂, hp₂, hg₂⟩
        cases hb₂
        rw [hp] at hp₂
        cases hp₂
        exact hg₂
  · simp

/-- The verify step's effects: exactly the one verify request, no checks, no
injections; the log is empty only on the successfully-parsed path. -/
theorem verifyOutcome_effects (logp : List Char) (w : World) (name : List Char) :
    (verifyOutcome logp w name).2.requests = [verifyRequest name] ∧
    (verifyOutcome logp w name).2.subChecks = 0 ∧
    (verifyOutcome logp w name).2.injections = 0 := by
  unfold verifyOutcome
  split
  · exact ⟨rfl, rfl, rfl⟩
  · split
    · exact ⟨rfl, rfl, rfl⟩
    · exact ⟨rfl, rfl, rfl⟩

/-- Every completed invocation of `check_streamer_subscription` records
exactly one subscription check. -/
theorem check_sub_subChecks (logp : List Char) (w : World) (sn : Option (List Char)) :
    (check_streamer_subscription logp w sn).2.subChecks = 1 := by
  unfold check_streamer_subscription
  rcases sn with _ | name
  · rfl
  · by_cases hn : name = []
    · simp [hn]
    · simp only [if_neg hn]
      by_cases hc : w.curlInitOk = false
      · simp only [if_pos hc, Effects.subChecks_append]
        have h1 := (increment_db_read_effects logp w (some name)).1
        omega
      · simp only [if_neg hc, Effects.subChecks_append]
        have h1 := (increment_db_read_effects logp w (some name)).1
        have h2 := (verifyOutcome_effects logp w name).2.1
        omega

/-- A completed subscription check always leaves at least one log line (the
status line, or the curl-init failure line). -/
theorem check_sub_logs_ne_nil (logp : List Char) (w : World) (name : List Char)
    (h : name ≠ []) :
    (check_streamer_subscription logp w (some name)).2.logs ≠ [] := by
  unfold check_streamer_subscription
  simp only [if_neg h]
  by_cases hc : w.curlInitOk = false
  · simp only [if_pos hc, Effects.logs_append]
    simp
  · simp only [if_neg hc, Effects.logs_append]
    simp

/-- When curl initializes, the db_read increment issues exactly its one
request. -/
theorem increment_db_read_requests_of_init (logp : List Char) (w : World) (name : List Char)
    (h : name ≠ []) (hc : w.curlInitOk = true) :
    (increment_db_read_counter logp w (some name)).2.requests = [dbReadRequest name] := by
  simp only [increment_db_read_counter]
  rw [if_neg h, if_neg (by simp [hc])]
  split
  · rfl
  · split <;> rfl

/-- When curl fails to initialize, the db_read increment issues no request. -/
theorem increment_db_read_requests_of_no_init (logp : List Char) (w : World) (name : List Char)
    (hc : w.curlInitOk = false) :
    (increment_db_read_counter logp w (some name)).2.requests = [] := by
  simp only [increment_db_read_counter]
  by_cases h : name = []
  · simp [h, Effects.empty]
  · rw [if_neg h, if_pos hc]

/-! ## Claim theorems -/

/-- Claim C4: for a NULL pointer or an empty string, the network-issuing
functions `check_streamer_subscription`, `increment_db_read_counter` and
`increment_successful_lookup_counter` all return false without issuing any
network request. -/
theorem network_funcs_reject_empty_name (logp : List Char) (w : World)
    (sn : Option (List Char)) (h : sn = none ∨ sn = some []) :
    (increment_db_read_counter logp w sn).1 = false ∧
    (increment_db_read_counter logp w sn).2.requests = [] ∧
    (increment_successful_lookup_counter logp w sn).1 = false ∧
    (increment_successful_lookup_counter logp w sn).2.requests = [] ∧
    (check_streamer_subscription logp w sn).1 = false ∧
    (check_streamer_subscription logp w sn).2.requests = [] := by
  rcases h with h | h <;> subst h <;> exact ⟨rfl, rfl, rfl, rfl, rfl, rfl⟩

/-- Witness for C4 at the concrete empty name. -/
theorem network_funcs_reject_empty_name_witness :
    (increment_db_read_counter [] wGood (some [])).1 = false ∧
    (increment_db_read_counter [] wGood (some [])).2.requests = [] ∧
    (increment_successful_lookup_counter [] wGood (some [])).1 = false ∧
    (increment_successful_lookup_counter [] wGood (some [])).2.requests = [] ∧
    (check_streamer_subscription [] wGood (some [])).1 = false ∧
    (check_streamer_subscription [] wGood (some [])).2.requests = [] :=
  network_funcs_reject_empty_name [] wGood (some []) (Or.inr rfl)

/-- Claim C3: for a non-empty name, `check_streamer_subscription` returns
true exactly when curl initializes, the transport call to the verify
endpoint succeeds, the body parses, and the JSON carries a boolean true
"subscribed" field — so every transport failure, parse failure or
missing/non-boolean field yields false — and a log line is emitted on every
path. -/
theorem check_streamer_subscription_failure_modes (logp : List Char) (w : World)
    (name : List Char) (h : name ≠ []) :
    ((check_streamer_subscription logp w (some name)).1 = true ↔
      (w.curlInitOk = true ∧ ∃ body root,
        w.transport (verifyRequest name) = CurlOutcome.ok body ∧
        w.parse body = some root ∧
        json_object_get root ("subscribed") = some (Json.bool true))) ∧
    (check_streamer_subscription logp w (some name)).2.logs ≠ [] := by
  refine ⟨?_, check_sub_logs_ne_nil logp w name h⟩
  unfold check_streamer_subscription
  simp only [if_neg h]
  by_cases hc : w.curlInitOk = false
  · simp only [if_pos hc]
    constructor
    · intro hfalse
      exact absurd hfalse (by simp)
    · rintro ⟨hck, _⟩
      rw [hc] at hck
      exact absurd hck (by simp)
  · rw [Bool.not_eq_false] at hc
    simp only [if_neg (by simp [hc] : ¬ w.curlInitOk = false)]
    rw [verifyOutcome_true_iff]
    simp [hc]

/-- Witness for C3 in a world where the verification succeeds. -/
theorem check_streamer_subscription_failure_modes_witness :
    ((check_streamer_subscription [] wGood ("alice".toList)).1 = true ↔
      (wGood.curlInitOk = true ∧ ∃ body root,
        wGood.transport (verifyRequest ("alice".toList)) = CurlOutcome.ok body ∧
        wGood.parse body = some root ∧
        json_object_get root ("subscribed") = some (Json.bool true))) ∧
    (check_streamer_subscription [] wGood ("alice".toList)).2.logs ≠ [] :=
  check_streamer_subscription_failure_modes [] wGood ("alice".toList) (by decide)

/-- Claim C8 counterexample: a completed subscription verification (world
`wGood`, name "alice") performs its one check and issues requests whose
URLs never hit the successful_lookup metrics endpoint — the second
fire-and-forget metrics increment the claim demands never happens. -/
theorem check_sub_no_lookup_request_cex :
    (check_streamer_subscription [] wGood (some ("alice".toList))).2.subChecks = 1 ∧
    ¬ (apiUrl METRICS_ENDPOINT_SUCCESSFUL_LOOKUP ∈
        (check_streamer_subscription [] wGood (some ("alice".toList))).2.requests.map
          HttpRequest.url) := by
  decide

/-- Claim C8 amended: every subscription verification with a non-empty name
fires at most one kind of metrics-increment request — db_read, issued
whenever curl initializes — and never a successful_lookup request;
`increment_successful_lookup_counter` has no caller in the repository. -/
theorem check_sub_metrics_requests (logp : List Char) (w : World) (name : List Char)
    (h : name ≠ []) :
    (∀ r ∈ (check_streamer_subscription logp w (some name)).2.requests,
        r.url ≠ apiUrl METRICS_ENDPOINT_SUCCESSFUL_LOOKUP) ∧
    (w.curlInitOk = true →
      dbReadRequest name ∈ (check_streamer_subscription logp w (some name)).2.requests) := by
  unfold check_streamer_subscription
  simp only [if_neg h]
  by_cases hc : w.curlInitOk = false
  · simp only [if_pos hc]
    constructor
    · intro r hr
      simp only [Effects.requests_append,
        increment_db_read_requests_of_no_init logp w name hc] at hr
      simp at hr
    · intro hck
      rw [hck] at hc
      exact Bool.noConfusion hc
  · rw [Bool.not_eq_false] at hc
    simp only [if_neg (by simp [hc] : ¬ w.curlInitOk = false)]
    constructor
    · intro r hr
      simp only [Effects.requests_append,
        increment_db_read_requests_of_init logp w name h hc,
        (verifyOutcome_effects logp w name).1] at hr
      simp at hr
      rcases hr with hr | hr <;> subst hr
      · simp only [dbReadRequest]
        decide
      · simp only [verifyRequest]
        decide
    · intro _
      simp only [Effects.requests_append,
        increment_db_read_requests_of_init logp w name h hc,
        (verifyOutcome_effects logp w name).1]
      simp

/-- Witness for the amended C8. -/
theorem check_sub_metrics_requests_witness :
    (∀ r ∈ (check_streamer_subscription [] wGood (some ("alice".toList))).2.requests,
        r.url ≠ apiUrl METRICS_ENDPOINT_SUCCESSFUL_LOOKUP) ∧
    (wGood.curlInitOk = true →
      dbReadRequest ("alice".toList) ∈
        (check_streamer_subscription [] wGood (some ("alice".toList))).2.requests) :=
  check_sub_metrics_requests [] wGood ("alice".toList) (by decide)

/-- Claim C10: the injector-variant inject builds the escaped injector
script into its dstr, but the calldata handed to the "javascript" host proc
is the zero-initialized one with no entries — the built script is never
placed in the submission. -/
theorem injector_calldata_empty (code : List Char) (phPresent : Bool)
    (hostResult : Option (List Char)) :
    (injector_inject_js_to_browser_source true (some code) phPresent hostResult).call =
      (if phPresent then some ⟨"javascript".toList, []⟩ else none) ∧
    (injector_inject_js_to_browser_source true (some code) phPresent hostResult).built =
      injTplHead ++ escape_js code ++ injTplTail := by
  cases phPresent <;> cases hostResult <;> exact ⟨rfl, rfl⟩

/-- Claim C7 counterexample: in plugin-main.c a missing or unreadable script
file at module load makes `obs_module_load` return false — a fatal error
surfaced to the host, which then drops the plugin. -/
theorem obs_module_load_fatal_cex : obs_module_load false true true = false := rfl

/-- Claim C7 amended: in eloward-rank-badges.c every failure (script load,
resolver miss, network or parse failure during the initial check) is logged
and non-fatal — module load always reports success, and a resolver miss
leaves a poll cycle as a no-op; in plugin-main.c, however,
`obs_module_load` reports failure to the host exactly when the script load,
the stop-event creation or the thread creation fails. -/
theorem module_load_failure_handling (w : World) (jsLoadOk : Bool)
    (resolved : Option (List Char)) (evOk thOk : Bool) (s : PluginState) :
    (badges_module_load w jsLoadOk resolved).1 = true ∧
    obs_module_load jsLoadOk evOk thOk = (jsLoadOk && evOk && thOk) ∧
    badges_poll_iteration w none s = (s, Effects.empty) := by
  refine ⟨?_, ?_, rfl⟩
  · unfold badges_module_load
    cases resolved <;> rfl
  · cases jsLoadOk <;> cases evOk <;> cases thOk <;> rfl

/-- The truncating write primitive never exceeds 127 characters and is the
identity on names that already fit. -/
theorem set_current_streamer_length (src : List Char) :
    (set_current_streamer src).length ≤ 127 := by
  simp only [set_current_streamer, List.length_take]
  omega

/-- The badges poll iteration either keeps the cached name or writes a
truncated one. -/
theorem badges_poll_iteration_streamer_cases (w : World) (resolved : Option (List Char))
    (s : PluginState) :
    (badges_poll_iteration w resolved s).1.current_streamer = s.current_streamer ∨
    ∃ n, (badges_poll_iteration w resolved s).1.current_streamer = set_current_streamer n := by
  unfold badges_poll_iteration
  rcases resolved with _ | name
  · exact Or.inl rfl
  · dsimp only
    by_cases hne : name ≠ s.current_streamer
    · rw [if_pos hne]
      split <;> exact Or.inr ⟨name, rfl⟩
    · rw [if_neg hne]
      split <;> exact Or.inl rfl

/-- The obs-variant update either keeps the cached name or writes a
truncated one. -/
theorem obs_rank_badges_update_streamer_cases (w : World) (resolved : Option (List Char))
    (s : PluginState) :
    (obs_rank_badges_update w resolved s).1.current_streamer = s.current_streamer ∨
    ∃ n, (obs_rank_badges_update w resolved s).1.current_streamer = set_current_streamer n := by
  unfold obs_rank_badges_update
  rcases resolved with _ | name
  · dsimp only
    split <;> exact Or.inl rfl
  · dsimp only
    by_cases hne : name ≠ s.current_streamer
    · rw [if_pos hne]
      split <;> exact Or.inr ⟨name, rfl⟩
    · rw [if_neg hne]
      split <;> exact Or.inl rfl

/-- The streaming-started handler either keeps the cached name or writes a
truncated one. -/
theorem obs_on_streaming_started_streamer_cases (w : World) (resolved : Option (List Char))
    (s : PluginState) :
    (obs_on_streaming_started w resolved s).1.current_streamer = s.current_streamer ∨
    ∃ n, (obs_on_streaming_started w resolved s).1.current_streamer = set_current_streamer n := by
  unfold obs_on_streaming_started
  rcases resolved with _ | name
  · exact Or.inl rfl
  · dsimp only
    split <;> exact Or.inr ⟨name, rfl⟩

/-- The badges-variant update either keeps the cached name or writes a
truncated one. -/
theorem badges_rank_badges_update_streamer_cases (w : World) (setting : List Char)
    (s : PluginState) :
    (badges_rank_badges_update w setting s).1.current_streamer = s.current_streamer ∨
    ∃ n, (badges_rank_badges_update w setting s).1.current_streamer = set_current_streamer n := by
  unfold badges_rank_badges_update
  by_cases h0 : setting = []
  · rw [if_pos h0]
    exact Or.inl rfl
  · rw [if_neg h0]
    by_cases hne : setting ≠ s.current_streamer
    · rw [if_pos hne]
      exact Or.inr ⟨setting, rfl⟩
    · rw [if_neg hne]
      exact Or.inl rfl

/-- Module load of the badges variant either leaves the empty initial name
or writes a truncated one. -/
theorem badges_module_load_streamer_cases (w : World) (jsLoadOk : Bool)
    (resolved : Option (List Char)) :
    (badges_module_load w jsLoadOk resolved).2.1.current_streamer = [] ∨
    ∃ n, (badges_module_load w jsLoadOk resolved).2.1.current_streamer = set_current_streamer n := by
  unfold badges_module_load
  rcases resolved with _ | name
  · exact Or.inl rfl
  · exact Or.inr ⟨name, rfl⟩

/-- Claim C9: every modelled operation that writes the cached streamer name
(the badges poll iteration, both update callbacks, the streaming-started
handler, module load) leaves `current_streamer` at most 127 characters
long, because every write truncates via
`strncpy(.., sizeof(buf) - 1); buf[sizeof(buf) - 1] = 0`; the write
primitive itself is bounded and copies short names verbatim. -/
theorem current_streamer_length_invariant (w : World) (resolved : Option (List Char))
    (setting : List Char) (s : PluginState) (hs : s.current_streamer.length ≤ 127) :
    (badges_poll_iteration w resolved s).1.current_streamer.length ≤ 127 ∧
    (obs_rank_badges_update w resolved s).1.current_streamer.length ≤ 127 ∧
    (obs_on_streaming_started w resolved s).1.current_streamer.length ≤ 127 ∧
    (badges_rank_badges_update w setting s).1.current_streamer.length ≤ 127 ∧
    (badges_module_load w true resolved).2.1.current_streamer.length ≤ 127 ∧
    ∀ src : List Char, (set_current_streamer src).length ≤ 127 ∧
      (src.length ≤ 127 → set_current_streamer src = src) := by
  refine ⟨?_, ?_, ?_, ?_, ?_, ?_⟩
  · rcases badges_poll_iteration_streamer_cases w resolved s with hcs | ⟨n, hcs⟩ <;> rw [hcs]
    · exact hs
    · exact set_current_streamer_length n
  · rcases obs_rank_badges_update_streamer_cases w resolved s with hcs | ⟨n, hcs⟩ <;> rw [hcs]
    · exact hs
    · exact set_current_streamer_length n
  · rcases obs_on_streaming_started_streamer_cases w resolved s with hcs | ⟨n, hcs⟩ <;> rw [hcs]
    · exact hs
    · exact set_current_streamer_length n
  · rcases badges_rank_badges_update_streamer_cases w setting s with hcs | ⟨n, hcs⟩ <;> rw [hcs]
    · exact hs
    · exact set_current_streamer_length n
  · rcases badges_module_load_streamer_cases w true resolved with hcs | ⟨n, hcs⟩ <;> rw [hcs]
    · exact Nat.zero_le 127
    · exact set_current_streamer_length n
  · intro src
    refine ⟨set_current_streamer_length src, ?_⟩
    intro hsrc
    exact List.take_of_length_le hsrc

/-- Witness for C9 at a concrete state and a long resolved name. -/
theorem current_streamer_length_invariant_witness :
    (badges_poll_iteration wDead (some (List.replicate 500 'x')) sAlice).1.current_streamer.length ≤ 127 ∧
    (obs_rank_badges_update wDead (some (List.replicate 500 'x')) sAlice).1.current_streamer.length ≤ 127 ∧
    (obs_on_streaming_started wDead (some (List.replicate 500 'x')) sAlice).1.current_streamer.length ≤ 127 ∧
    (badges_rank_badges_update wDead ("bob".toList) sAlice).1.current_streamer.length ≤ 127 ∧
    (badges_module_load wDead true (some (List.replicate 500 'x'))).2.1.current_streamer.length ≤ 127 ∧
    ∀ src : List Char, (set_current_streamer src).length ≤ 127 ∧
      (src.length ≤ 127 → set_current_streamer src = src) :=
  current_streamer_length_invariant wDead (some (List.replicate 500 'x')) ("bob".toList)
    sAlice (by decide)

/-- Runs of the obs loop skeleton: started at any index at most `r + 1`,
with the signal visible from head check `r + 1` on, the loop exits at head
check `r + 1`. -/
theorem obs_poll_loop_exit_aux (r : Nat) :
    ∀ (fuel i : Nat), i ≤ r + 1 → r + 2 ≤ i + fuel →
      obs_poll_loop_exit (fun j => decide (r < j)) fuel i = some (r + 1) := by
  intro fuel
  induction fuel with
  | zero =>
    intro i h1 h2
    omega
  | succ n ih =>
    intro i h1 h2
    unfold obs_poll_loop_exit
    by_cases hri : r < i
    · have hie : i = r + 1 := by omega
      simp [hri, hie]
    · simp only [decide_eq_true_eq]
      rw [if_neg hri]
      exact ih (i + 1) (by omega) (by omega)

/-- Runs of the badges loop skeleton: with the signal raised during
iteration `r` (so the running flag is still set at every head check up to
`r`, and the timed wait of iteration `r` is the first to observe the
signal), the loop exits during iteration `r` out of the timed wait. -/
theorem badges_poll_loop_exit_aux (r : Nat) :
    ∀ (fuel i : Nat), i ≤ r → r + 1 ≤ i + fuel →
      badges_poll_loop_exit (fun j => decide (j ≤ r)) (fun j => decide (r ≤ j)) fuel i =
        some (r, true) := by
  intro fuel
  induction fuel with
  | zero =>
    intro i h1 h2
    omega
  | succ n ih =>
    intro i h1 h2
    unfold badges_poll_loop_exit
    rw [if_neg (by simp [h1])]
    by_cases hwi : r ≤ i
    · have hie : i = r := by omega
      simp [hwi, hie]
    · simp only [decide_eq_true_eq]
      rw [if_neg hwi]
      exact ih (i + 1) (by omega) (by omega)

/-- Claim C6: with the stop signal raised during iteration `r`, the
plugin-main.c loop completes exactly the sleep of iteration `r` — one full
POLL_INTERVAL_MS interval — and exits at the next head check, while the
eloward-rank-badges.c loop exits during iteration `r` itself, woken early
out of its timed wait; in both skeletons at most one sleep interval
elapses after the signal. -/
theorem poll_loop_stops_within_one_interval (r fuel : Nat) (hfuel : r + 2 ≤ fuel) :
    obs_poll_loop_exit (fun j => decide (r < j)) fuel 0 = some (r + 1) ∧
    badges_poll_loop_exit (fun j => decide (j ≤ r)) (fun j => decide (r ≤ j)) fuel 0 =
      some (r, true) ∧
    POLL_INTERVAL_MS = 5000 := by
  refine ⟨?_, ?_, rfl⟩
  · exact obs_poll_loop_exit_aux r fuel 0 (by omega) (by omega)
  · exact badges_poll_loop_exit_aux r fuel 0 (by omega) (by omega)

/-- Witness for C6 with the signal raised during iteration 1. -/
theorem poll_loop_stops_within_one_interval_witness :
    obs_poll_loop_exit (fun j => decide (1 < j)) 4 0 = some 2 ∧
    badges_poll_loop_exit (fun j => decide (j ≤ 1)) (fun j => decide (1 ≤ j)) 4 0 =
      some (1, true) ∧
    POLL_INTERVAL_MS = 5000 :=
  poll_loop_stops_within_one_interval 1 4 (by decide)

/-- The plugin-main.c poll iteration never changes the cached streamer
name (the loop body contains no resolution and no write to it). -/
theorem obs_poll_iteration_keeps_streamer (w : World) (s : PluginState) :
    (obs_poll_iteration w s).1.current_streamer = s.current_streamer := by
  unfold obs_poll_iteration
  split
  · rfl
  · dsimp only
    split
    · split <;> rfl
    · rfl

/-- Claim C1 amended: in the eloward-rank-badges.c poll loop, an iteration
whose resolved name equals the cached one performs no subscription check;
in the plugin-main.c poll loop, which performs no resolution at all, every
iteration with a non-empty cached name invokes the subscription check even
though the cached name never changes. -/
theorem poll_check_gating (w : World) (s : PluginState) (name : List Char)
    (hname : name = s.current_streamer) :
    (badges_poll_iteration w (some name) s).2.subChecks = 0 ∧
    (s.current_streamer ≠ [] →
      (obs_poll_iteration w s).2.subChecks = 1 ∧
      (obs_poll_iteration w s).1.current_streamer = s.current_streamer) := by
  constructor
  · unfold badges_poll_iteration
    dsimp only
    have hcond : ¬ (name ≠ s.current_streamer) := by simp [hname]
    rw [if_neg hcond]
    split
    · simp [Effects.subChecks_append, Effects.empty]
    · simp [Effects.empty]
  · intro hne
    refine ⟨?_, obs_poll_iteration_keeps_streamer w s⟩
    unfold obs_poll_iteration
    rw [if_neg hne]
    dsimp only
    split
    · split <;> simp [Effects.subChecks_append, check_sub_subChecks]
    · simp [check_sub_subChecks]

/-- Witness for the amended C1 at the concrete state `sAlice`. -/
theorem poll_check_gating_witness :
    (badges_poll_iteration wDead (some ("alice".toList)) sAlice).2.subChecks = 0 ∧
    (sAlice.current_streamer ≠ [] →
      (obs_poll_iteration wDead sAlice).2.subChecks = 1 ∧
      (obs_poll_iteration wDead sAlice).1.current_streamer = sAlice.current_streamer) :=
  poll_check_gating wDead sAlice ("alice".toList) (by decide)

/-- Claim C1 counterexample: a plugin-main.c poll iteration that leaves the
cached streamer name "alice" unchanged (this loop resolves nothing) still
invokes `check_streamer_subscription` and sends the verify request. -/
theorem obs_poll_checks_without_change_cex :
    (obs_poll_iteration wGood sAlice).1.current_streamer = sAlice.current_streamer ∧
    (obs_poll_iteration wGood sAlice).2.subChecks = 1 ∧
    verifyRequest (sAlice.current_streamer) ∈ (obs_poll_iteration wGood sAlice).2.requests := by
  decide

/-- A list decomposed around `m` contains `m` as an infix. -/
theorem infix_of_decomp (A m B l : List Char) (h : l = A ++ (m ++ B)) : m <:+: l :=
  ⟨A, B, by rw [h, List.append_assoc]⟩

/-- Truncating a list decomposed around `m` keeps `m` as an infix as long as
the truncation point lies beyond `m`. -/
theorem infix_take_of_bound (A m B : List Char) (n : Nat) (h : A.length + m.length ≤ n) :
    m <:+: (A ++ (m ++ B)).take n := by
  rw [List.take_append_eq_append_take, List.take_append_eq_append_take]
  rw [List.take_of_length_le (show A.length ≤ n by omega)]
  rw [List.take_of_length_le (show m.length ≤ n - A.length by omega)]
  exact ⟨A, B.take (n - A.length - m.length), by rw [List.append_assoc]⟩

/-- With the streamer name inside its 128-byte buffer bound, the obs config
line fits its 512-byte buffer, so no truncation happens. -/
theorem obs_config_json_eq (cur : List Char) (hcur : cur.length ≤ 127) :
    obs_config_json cur =
      cfgA ++ cur ++ cfgB ++ RANK_API_URL ++ cfgC ++ SUBSCRIPTION_API_URL ++ cfgD := by
  unfold obs_config_json snprintfTake
  apply List.take_of_length_le
  have h1 : cfgA.length ≤ 60 := by decide
  have h2 : cfgB.length ≤ 60 := by decide
  have h3 : cfgC.length ≤ 30 := by decide
  have h4 : cfgD.length ≤ 10 := by decide
  have h5 : RANK_API_URL.length ≤ 80 := by decide
  have h6 : SUBSCRIPTION_API_URL.length ≤ 70 := by decide
  simp only [List.length_append]
  omega

/-- The final snprintf of plugin-main.c:413-417 writes into a buffer sized
to its content plus ten bytes, so it never truncates. -/
theorem obs_built_js_eq (cur : List Char) (respath : Option (List Char)) (code : List Char) :
    obs_built_js cur respath code =
      obs_config_json cur ++ ['\n'] ++ obs_resources_js respath ++ ['\n'] ++ code := by
  unfold obs_built_js snprintfTake
  apply List.take_of_length_le
  simp only [List.length_append, List.length_cons, List.length_nil]
  omega

/-- The JS the obs variant builds contains the cached streamer name and both
API URLs. -/
theorem obs_built_js_contains (cur : List Char) (respath : Option (List Char))
    (code : List Char) (hcur : cur.length ≤ 127) :
    cur <:+: obs_built_js cur respath code ∧
    RANK_API_URL <:+: obs_built_js cur respath code ∧
    SUBSCRIPTION_API_URL <:+: obs_built_js cur respath code := by
  rw [obs_built_js_eq, obs_config_json_eq cur hcur]
  refine ⟨?_, ?_, ?_⟩
  · exact infix_of_decomp cfgA cur
      (cfgB ++ (RANK_API_URL ++ (cfgC ++ (SUBSCRIPTION_API_URL ++ (cfgD ++ (['\n']
        ++ (obs_resources_js respath ++ (['\n'] ++ code)))))))) _
      (by simp [List.append_assoc])
  · exact infix_of_decomp (cfgA ++ (cur ++ cfgB)) RANK_API_URL
      (cfgC ++ (SUBSCRIPTION_API_URL ++ (cfgD ++ (['\n']
        ++ (obs_resources_js respath ++ (['\n'] ++ code)))))) _
      (by simp [List.append_assoc])
  · exact infix_of_decomp (cfgA ++ (cur ++ (cfgB ++ (RANK_API_URL ++ cfgC))))
      SUBSCRIPTION_API_URL
      (cfgD ++ (['\n'] ++ (obs_resources_js respath ++ (['\n'] ++ code)))) _
      (by simp [List.append_assoc])

/-- The script the badges variant builds contains the cached streamer name
and both API URLs: they sit in the first few hundred characters, far below
the 65536-byte truncation point. -/
theorem badges_build_script_contains (cur : List Char) (flag : Bool) (code : List Char)
    (hcur : cur.length ≤ 127) :
    cur <:+: badges_build_script cur flag code ∧
    RANK_API_URL <:+: badges_build_script cur flag code ∧
    SUBSCRIPTION_API_URL <:+: badges_build_script cur flag code := by
  have h1 : badgesTpl1.length ≤ 200 := by decide
  have h2 : badgesTpl2.length ≤ 40 := by decide
  have h3 : badgesTpl3.length ≤ 60 := by decide
  have h4 : badgesTpl4.length ≤ 60 := by decide
  have h5 : RANK_API_URL.length ≤ 80 := by decide
  have h6 : SUBSCRIPTION_API_URL.length ≤ 70 := by decide
  have hb : (boolJs flag).length ≤ 5 := by cases flag <;> decide
  unfold badges_build_script snprintfTake
  refine ⟨?_, ?_, ?_⟩
  · rw [show badgesTpl1 ++ cur ++ badgesTpl2 ++ boolJs flag ++ badgesTpl3 ++ RANK_API_URL
          ++ badgesTpl4 ++ SUBSCRIPTION_API_URL ++ badgesTpl5 ++ code ++ badgesTpl6 =
        badgesTpl1 ++ (cur ++ (badgesTpl2 ++ (boolJs flag ++ (badgesTpl3 ++ (RANK_API_URL
          ++ (badgesTpl4 ++ (SUBSCRIPTION_API_URL ++ (badgesTpl5 ++ (code ++ badgesTpl6)))))))))
        from by simp [List.append_assoc]]
    exact infix_take_of_bound _ _ _ _ (by omega)
  · rw [show badgesTpl1 ++ cur ++ badgesTpl2 ++ boolJs flag ++ badgesTpl3 ++ RANK_API_URL
          ++ badgesTpl4 ++ SUBSCRIPTION_API_URL ++ badgesTpl5 ++ code ++ badgesTpl6 =
        (badgesTpl1 ++ (cur ++ (badgesTpl2 ++ (boolJs flag ++ badgesTpl3)))) ++ (RANK_API_URL
          ++ (badgesTpl4 ++ (SUBSCRIPTION_API_URL ++ (badgesTpl5 ++ (code ++ badgesTpl6)))))
        from by simp [List.append_assoc]]
    refine infix_take_of_bound _ _ _ _ ?_
    simp only [List.length_append]
    omega
  · rw [show badgesTpl1 ++ cur ++ badgesTpl2 ++ boolJs flag ++ badgesTpl3 ++ RANK_API_URL
          ++ badgesTpl4 ++ SUBSCRIPTION_API_URL ++ badgesTpl5 ++ code ++ badgesTpl6 =
        (badgesTpl1 ++ (cur ++ (badgesTpl2 ++ (boolJs flag ++ (badgesTpl3 ++ (RANK_API_URL
          ++ badgesTpl4)))))) ++ (SUBSCRIPTION_API_URL ++ (badgesTpl5 ++ (code ++ badgesTpl6)))
        from by simp [List.append_assoc]]
    refine infix_take_of_bound _ _ _ _ ?_
    simp only [List.length_append]
    omega

/-- An obs-variant inject that reaches the host call submits exactly the
built JS. -/
theorem obs_inject_some (src : Option BrowserSource) (jsc : Option (List Char))
    (sub : Bool) (cur : List Char) (respath : Option (List Char)) (js : List Char)
    (h : (obs_inject_js_to_browser_source src jsc sub cur respath).2 = some js) :
    ∃ code, jsc = some code ∧ js = obs_built_js cur respath code := by
  rcases src with _ | s
  · simp [obs_inject_js_to_browser_source] at h
  · rcases jsc with _ | code
    · simp [obs_inject_js_to_browser_source] at h
    · refine ⟨code, rfl, ?_⟩
      simp only [obs_inject_js_to_browser_source] at h
      split at h
      · simp at h
      · split at h
        · simp at h
        · split at h
          · simp at h
          · simp at h
            exact h.symm

/-- A badges-variant inject that reaches the host call submits a calldata
whose single "script" entry is the built script. -/
theorem badges_inject_some (src : Option BrowserSource) (jsc : Option (List Char))
    (cur : List Char) (flag : Bool) (ph : Bool) (hr : Option (List Char))
    (call : CallSubmission)
    (h : (badges_inject_js_to_browser_source src jsc cur flag ph hr).2 = some call) :
    ∃ code, jsc = some code ∧
      call = ⟨"execute_js".toList, [("script".toList, badges_build_script cur flag code)]⟩ := by
  rcases src with _ | s
  · simp [badges_inject_js_to_browser_source] at h
  · rcases jsc with _ | code
    · simp [badges_inject_js_to_browser_source] at h
    · refine ⟨code, rfl, ?_⟩
      simp only [badges_inject_js_to_browser_source] at h
      cases ph
      · simp at h
      · cases hr <;> simp at h <;> exact h.symm

/-- Claim C2 amended: in the plugin-main.c and eloward-rank-badges.c
variants, every JS string handed to the host RPC contains the cached
streamer name (which the 128-byte buffer invariant keeps at 127 characters
or fewer) and both API base URLs as substrings; the rank-badge-injector.c
variant is excluded — its submission carries no script at all. -/
theorem inject_js_contains_config (cur : List Char) (hcur : cur.length ≤ 127) :
    (∀ src jsc sub respath js,
      (obs_inject_js_to_browser_source src jsc sub cur respath).2 = some js →
        cur <:+: js ∧ RANK_API_URL <:+: js ∧ SUBSCRIPTION_API_URL <:+: js) ∧
    (∀ src jsc flag ph hr call,
      (badges_inject_js_to_browser_source src jsc cur flag ph hr).2 = some call →
        ∃ v, call.calldata = [("script".toList, v)] ∧
          cur <:+: v ∧ RANK_API_URL <:+: v ∧ SUBSCRIPTION_API_URL <:+: v) := by
  constructor
  · intro src jsc sub respath js h
    rcases obs_inject_some src jsc sub cur respath js h with ⟨code, _, hjs⟩
    rw [hjs]
    exact obs_built_js_contains cur respath code hcur
  · intro src jsc flag ph hr call h
    rcases badges_inject_some src jsc cur flag ph hr call h with ⟨code, _, hcall⟩
    refine ⟨badges_build_script cur flag code, by rw [hcall], ?_⟩
    exact badges_build_script_contains cur flag code hcur

/-- Witness for the amended C2 on a concrete successful submission of both
variants. -/
theorem inject_js_contains_config_witness :
    ("alice".toList <:+: obs_built_js ("alice".toList) none ("var x = 1;".toList) ∧
      RANK_API_URL <:+: obs_built_js ("alice".toList) none ("var x = 1;".toList) ∧
      SUBSCRIPTION_API_URL <:+: obs_built_js ("alice".toList) none ("var x = 1;".toList)) ∧
    (∃ v, (CallSubmission.mk ("execute_js".toList)
            [("script".toList, badges_build_script ("alice".toList) true ("var x = 1;".toList))]).calldata =
          [("script".toList, v)] ∧
        "alice".toList <:+: v ∧ RANK_API_URL <:+: v ∧ SUBSCRIPTION_API_URL <:+: v) :=
  ⟨(inject_js_contains_config ("alice".toList) (by decide)).1 (some bsChat)
      (some ("var x = 1;".toList)) true none
      (obs_built_js ("alice".toList) none ("var x = 1;".toList)) (by decide),
   (inject_js_contains_config ("alice".toList) (by decide)).2 (some bsChat)
      (some ("var x = 1;".toList)) true true (some ("ok".toList))
      (CallSubmission.mk ("execute_js".toList)
        [("script".toList, badges_build_script ("alice".toList) true ("var x = 1;".toList))])
      (by decide)⟩

/-- Claim C2 counterexample: in rank-badge-injector.c a successful injection
(the host returned a result string) submits the "javascript" proc call with
an empty calldata — no submitted JS string exists, let alone one containing
the streamer name and the API URLs. -/
theorem injector_submits_no_config_cex :
    (injector_inject_js_to_browser_source true (some ("var x;".toList)) true
        (some ("ok".toList))).ret = true ∧
    (injector_inject_js_to_browser_source true (some ("var x;".toList)) true
        (some ("ok".toList))).call = some ⟨"javascript".toList, []⟩ := by
  decide

/-- Claim C5 amended: the escaping loop of rank-badge-injector.c implements
exactly the claimed per-character table (backtick to backslash-backtick,
backslash to double backslash, newline to backslash-n, all else verbatim)
and feeds the injector template; the eloward-rank-badges.c variant, in
contrast, embeds the loaded script text verbatim inside its template
literal. -/
theorem escape_js_spec (code cur : List Char) (flag : Bool)
    (hcur : cur.length ≤ 127) (hcode : code.length ≤ 60000) :
    escape_js code = (code.map escapeCharSpec).flatten ∧
    (∀ ph hr, (injector_inject_js_to_browser_source true (some code) ph hr).built =
      injTplHead ++ escape_js code ++ injTplTail) ∧
    code <:+: badges_build_script cur flag code := by
  refine ⟨?_, ?_, ?_⟩
  · clear hcode
    induction code with
    | nil => rfl
    | cons c cs ih => simp [escape_js, escapeCharSpec, ih]
  · intro ph hr
    cases ph <;> cases hr <;> rfl
  · have h1 : badgesTpl1.length ≤ 200 := by decide
    have h2 : badgesTpl2.length ≤ 40 := by decide
    have h3 : badgesTpl3.length ≤ 60 := by decide
    have h4 : badgesTpl4.length ≤ 60 := by decide
    have h5 : RANK_API_URL.length ≤ 80 := by decide
    have h6 : SUBSCRIPTION_API_URL.length ≤ 70 := by decide
    have h7 : badgesTpl5.length ≤ 60 := by decide
    have hb : (boolJs flag).length ≤ 5 := by cases flag <;> decide
    unfold badges_build_script snprintfTake
    rw [show badgesTpl1 ++ cur ++ badgesTpl2 ++ boolJs flag ++ badgesTpl3 ++ RANK_API_URL
          ++ badgesTpl4 ++ SUBSCRIPTION_API_URL ++ badgesTpl5 ++ code ++ badgesTpl6 =
        (badgesTpl1 ++ (cur ++ (badgesTpl2 ++ (boolJs flag ++ (badgesTpl3 ++ (RANK_API_URL
          ++ (badgesTpl4 ++ (SUBSCRIPTION_API_URL ++ badgesTpl5)))))))) ++ (code ++ badgesTpl6)
        from by simp [List.append_assoc]]
    refine infix_take_of_bound _ _ _ _ ?_
    simp only [List.length_append]
    omega

/-- Witness for the amended C5 on a concrete script body. -/
theorem escape_js_spec_witness :
    escape_js ("var y = 2;".toList) = (("var y = 2;".toList).map escapeCharSpec).flatten ∧
    (∀ ph hr, (injector_inject_js_to_browser_source true (some ("var y = 2;".toList)) ph hr).built =
      injTplHead ++ escape_js ("var y = 2;".toList) ++ injTplTail) ∧
    "var y = 2;".toList <:+: badges_build_script ("alice".toList) true ("var y = 2;".toList) :=
  escape_js_spec ("var y = 2;".toList) ("alice".toList) true (by decide) (by decide)

/-- Claim C5 counterexample: for the one-character script consisting of a
single backtick, the script eloward-rank-badges.c actually builds differs
from the one built with the claimed escaping applied, and the escaped pair
backslash-backtick occurs nowhere in what is actually built — the backtick
is embedded raw. -/
theorem badges_embeds_unescaped_cex :
    badges_build_script ("alice".toList) true [backtick] ≠
      badges_build_script_escaped ("alice".toList) true [backtick] ∧
    ¬ ([bslash, backtick] <:+: badges_build_script ("alice".toList) true [backtick]) := by
  have h1 : badgesTpl1.length ≤ 200 := by decide
  have h2 : badgesTpl2.length ≤ 40 := by decide
  have h3 : badgesTpl3.length ≤ 60 := by decide
  have h4 : badgesTpl4.length ≤ 60 := by decide
  have h5 : RANK_API_URL.length ≤ 80 := by decide
  have h6 : SUBSCRIPTION_API_URL.length ≤ 70 := by decide
  have h7 : badgesTpl5.length ≤ 60 := by decide
  have h8 : badgesTpl6.length ≤ 250 := by decide
  have hesc : escape_js [backtick] = [bslash, backtick] := by decide
  have e1 : badges_build_script ("alice".toList) true [backtick] =
      badgesTpl1 ++ "alice".toList ++ badgesTpl2 ++ boolJs true ++ badgesTpl3
        ++ RANK_API_URL ++ badgesTpl4 ++ SUBSCRIPTION_API_URL ++ badgesTpl5
        ++ [backtick] ++ badgesTpl6 := by
    unfold badges_build_script snprintfTake
    apply List.take_of_length_le
    simp only [List.length_append]
    have hb : (boolJs true).length ≤ 5 := by decide
    have ha : ("alice".toList).length ≤ 5 := by decide
    simp only [List.length_cons, List.length_nil]
    omega
  have e2 : badges_build_script_escaped ("alice".toList) true [backtick] =
      badgesTpl1 ++ "alice".toList ++ badgesTpl2 ++ boolJs true ++ badgesTpl3
        ++ RANK_API_URL ++ badgesTpl4 ++ SUBSCRIPTION_API_URL ++ badgesTpl5
        ++ [bslash, backtick] ++ badgesTpl6 := by
    unfold badges_build_script_escaped snprintfTake
    rw [hesc]
    apply List.take_of_length_le
    simp only [List.length_append]
    have hb : (boolJs true).length ≤ 5 := by decide
    have ha : ("alice".toList).length ≤ 5 := by decide
    simp only [List.length_cons, List.length_nil]
    omega
  constructor
  · intro heq
    rw [e1, e2] at heq
    have hl := congrArg List.length heq
    simp only [List.length_append, List.length_cons, List.length_nil] at hl
    omega
  · intro hinf
    have hmem : bslash ∈ badges_build_script ("alice".toList) true [backtick] := by
      rcases hinf with ⟨s, t, hst⟩
      rw [← hst]
      simp
    rw [e1] at hmem
    simp only [List.mem_append] at hmem
    rcases hmem with ((((((((((hm | hm) | hm) | hm) | hm) | hm) | hm) | hm) | hm) | hm) | hm)
      <;> revert hm <;> decide

end EloWard
